import Mathlib

/-!
Verification of the weather-api repository (Go) against its specification.

The embedding models the code in src/weather_service.go, src/types.go,
src/pkg/server/handlers.go and src/pkg/server/types.go.  Network I/O and
JSON decoding (Go stdlib, not repository code) are abstracted as an
environment `HttpEnv`: the outcome of `http.Get` per URL and the outcome
of decoding a response body into `WeatherData`.  All repository logic
(URL construction, status validation, parse, per-city task body, batch
collection, handler branching) is translated directly from the source.

The concurrent fan-out/fan-in of `FetchCitiesWeather` is modelled twice:
as the canonical result function `FetchCitiesWeather` (the collected
successes, in dispatch order), and as a small-step interleaving relation
`BatchStep` on `BatchState` (pending goroutines, the buffered channel,
the closer, the draining main loop), whose every terminal execution is
proved to collect exactly a permutation of the canonical result.
-/

/-- Nested coord struct of WeatherData (src/types.go): longitude and latitude. -/
structure Coord where
  lon : Float
  lat : Float

/-- One element of the weather condition list in WeatherData (src/types.go). -/
structure WeatherCondition where
  id : Int
  main : String
  description : String
  icon : String

/-- Nested main struct of WeatherData (src/types.go): core metrics. -/
structure MainMetrics where
  temp : Float
  feelsLike : Float
  tempMin : Float
  tempMax : Float
  pressure : Int
  humidity : Int
  seaLevel : Int
  grndLevel : Int

/-- Nested wind struct of WeatherData (src/types.go). -/
structure Wind where
  speed : Float
  deg : Int
  gust : Float

/-- Nested rain struct of WeatherData (src/types.go). -/
structure Rain where
  oneH : Float

/-- Nested clouds struct of WeatherData (src/types.go). -/
structure Clouds where
  all : Int

/-- Nested sys struct of WeatherData (src/types.go). -/
structure Sys where
  type : Int
  id : Int
  country : String
  sunrise : Int
  sunset : Int

/-- WeatherData (src/types.go): the decoded shape of one city's weather reading. -/
structure WeatherData where
  coord : Coord
  weather : List WeatherCondition
  base : String
  main : MainMetrics
  visibility : Int
  wind : Wind
  rain : Rain
  clouds : Clouds
  dt : Int
  sys : Sys
  timezone : Int
  id : Int
  name : String
  cod : Int

/-- An HTTP response as observed by the service: status code and raw body.
Models the parts of Go's http.Response the repository reads. -/
structure HttpResponse where
  statusCode : Nat
  body : String

/-- Environment abstracting the Go standard library effects the service uses:
the outcome of http.Get for a given URL (transport error or a response), and
the outcome of json.Decode of a body into the WeatherData shape (none on a
structurally invalid body). -/
structure HttpEnv where
  get : String → Except String HttpResponse
  decodeWeatherData : String → Option WeatherData

/-- WeatherService (src/weather_service.go): API key and base URL. -/
structure WeatherService where
  apiKey : String
  baseURL : String

/-- NewWeatherService (src/weather_service.go lines 25-30): fixed base URL. -/
def NewWeatherService (apiKey : String) : WeatherService :=
  { apiKey := apiKey
    baseURL := "https://api.openweathermap.org/data/2.5/weather" }

/-- constructURL (src/weather_service.go lines 123-125):
Sprintf of baseURL, "?q=", city, "&appid=", apiKey, with no escaping. -/
def constructURL (ws : WeatherService) (city : String) : String :=
  ws.baseURL ++ "?q=" ++ city ++ "&appid=" ++ ws.apiKey

/-- validateResponse (src/weather_service.go lines 135-140): error unless
the status code is 200 (http.StatusOK). -/
def validateResponse (res : HttpResponse) : Except String Unit :=
  if res.statusCode ≠ 200 then
    Except.error ("error fetching weather data: status code " ++ toString res.statusCode)
  else
    Except.ok ()

/-- parseWeatherData (src/weather_service.go lines 150-156): decode the body
into WeatherData, error if the JSON decoder fails. -/
def parseWeatherData (env : HttpEnv) (res : HttpResponse) : Except String WeatherData :=
  match env.decodeWeatherData res.body with
  | none => Except.error "error parsing weather data"
  | some w => Except.ok w

/-- FetchCityWeather (src/weather_service.go lines 41-56): construct the URL,
GET it, validate the status, parse the body. -/
def FetchCityWeather (env : HttpEnv) (ws : WeatherService) (city : String) :
    Except String WeatherData :=
  match env.get (constructURL ws city) with
  | Except.error e => Except.error ("failed to fetch weather data: " ++ e)
  | Except.ok res =>
    match validateResponse res with
    | Except.error e => Except.error e
    | Except.ok _ => parseWeatherData env res

/-- The body of the per-city goroutine launched by FetchCitiesWeather
(src/weather_service.go lines 73-97): construct the URL, GET, validate,
parse; on any failure log and return nothing, on success send the record
to the channel (here: return it). -/
def cityFetchTask (env : HttpEnv) (ws : WeatherService) (city : String) :
    Option WeatherData :=
  match env.get (constructURL ws city) with
  | Except.error _ => none
  | Except.ok res =>
    match validateResponse res with
    | Except.error _ => none
    | Except.ok _ =>
      match parseWeatherData env res with
      | Except.error _ => none
      | Except.ok w => some w

/-- FetchCitiesWeather (src/weather_service.go lines 67-113): the collected
successful records of one per-city task per input occurrence, and a nil
error.  The source collects in channel arrival order, a permutation of this
dispatch-order list that depends on the interleaving; the interleavings are
modelled by BatchStep below and proved to collect a permutation of this. -/
def FetchCitiesWeather (env : HttpEnv) (ws : WeatherService) (cities : List String) :
    List WeatherData × Option String :=
  (cities.filterMap (cityFetchTask env ws), none)

/-- APIError (src/pkg/server/types.go): JSON error envelope. -/
structure APIError where
  error : String

/-- APIResponse (src/pkg/server/types.go): JSON success envelope; the data
field is the batch result here (the handler passes the fetched records). -/
structure APIResponse where
  message : String
  data : List WeatherData

/-- What util.WriteJSON is called with by handleRoot: a status code and
either an APIError or an APIResponse body. -/
inductive ResponseBody where
  | errBody (e : APIError)
  | okBody (r : APIResponse)

/-- The observable reply written by the handler for one request. -/
structure HttpReply where
  status : Nat
  body : ResponseBody

/-- The repeated values of one query key, as Go's r.URL.Query()[key]:
the query is a list of key-value pairs, and the values with the given key
are kept in order. -/
def queryValues (query : List (String × String)) (key : String) : List String :=
  (query.filter (fun p => p.fst = key)).map Prod.snd

/-- handleRoot (src/pkg/server/handlers.go lines 20-43), parameterized over
the injected weather provider's FetchCitiesWeather: read the repeated city
query parameters; if none, write 400 with the fixed error body and do not
call the fetcher; otherwise call the fetcher and write 500 with the error
message on a non-nil error, else 200 with the success envelope. -/
def handleRoot (fetchAll : List String → List WeatherData × Option String)
    (query : List (String × String)) : HttpReply :=
  let cities := queryValues query "city"
  if cities.length = 0 then
    { status := 400
      body := ResponseBody.errBody { error := "At least one city parameter is required" } }
  else
    match fetchAll cities with
    | (_, some e) =>
      { status := 500, body := ResponseBody.errBody { error := e } }
    | (results, none) =>
      { status := 200
        body := ResponseBody.okBody
          { message := "Weather fetched successfully", data := results } }

/-- State of one execution of the fan-out/fan-in in FetchCitiesWeather
(src/weather_service.go lines 68-112): the outcomes of the goroutines not
yet run (each goroutine's behaviour is a pure function of its city, so a
pending goroutine is represented by its outcome), the contents of the
buffered channel ch, whether ch has been closed by the closer goroutine,
and the result slice accumulated by the main receive loop. -/
structure BatchState where
  pending : List (Option WeatherData)
  buf : List WeatherData
  closed : Bool
  collected : List WeatherData

/-- Interleaving steps of the batch execution.  runTask: any pending
goroutine runs to completion, sending its record to the buffered channel on
success (the channel has capacity for all tasks, so a send never blocks; the
deferred wg.Done fires after the send, so completing the task and depositing
its value is one step).  closeChan: the closer goroutine observes wg.Wait
(all tasks done) and closes the channel once.  recv: the main loop receives
one buffered value and appends it to the result slice. -/
inductive BatchStep : BatchState → BatchState → Prop
  | runTask (s : BatchState) (l1 l2 : List (Option WeatherData)) (o : Option WeatherData) :
      s.pending = l1 ++ o :: l2 →
      BatchStep s
        { pending := l1 ++ l2, buf := s.buf ++ o.toList,
          closed := s.closed, collected := s.collected }
  | closeChan (s : BatchState) :
      s.pending = [] → s.closed = false →
      BatchStep s { s with closed := true }
  | recv (s : BatchState) (w : WeatherData) (rest : List WeatherData) :
      s.buf = w :: rest →
      BatchStep s { s with buf := rest, collected := s.collected ++ [w] }

/-- Initial state of a batch over the given cities: one dispatched goroutine
per input occurrence, empty channel, not closed, empty result slice. -/
def initBatch (env : HttpEnv) (ws : WeatherService) (cities : List String) : BatchState :=
  { pending := cities.map (cityFetchTask env ws)
    buf := []
    closed := false
    collected := [] }

/-- The main loop (for data := range ch) exits, and FetchCitiesWeather
returns, exactly when the channel is closed and drained. -/
def BatchDone (s : BatchState) : Prop :=
  s.closed = true ∧ s.buf = []

/-- Tagging each kept element with some exhibits filterMap as an
order-preserving selection of the per-element outcomes. -/
theorem map_some_filterMap_sublist {α β : Type} (f : α → Option β) (l : List α) :
    ((l.filterMap f).map some).Sublist (l.map f) := by
  induction l with
  | nil => simp
  | cons a l ih =>
    cases h : f a with
    | none =>
      simp only [List.filterMap_cons, h, List.map_cons]
      exact ih.cons none
    | some b =>
      simp only [List.filterMap_cons, h, List.map_cons]
      exact ih.cons₂ (some b)

/-- filterMap keeps everything when every element maps to some. -/
theorem length_filterMap_of_isSome {α β : Type} (f : α → Option β) (l : List α)
    (h : ∀ a ∈ l, (f a).isSome = true) : (l.filterMap f).length = l.length := by
  induction l with
  | nil => rfl
  | cons a l ih =>
    have ha : (f a).isSome = true := h a (List.mem_cons_self a l)
    cases hfa : f a with
    | none => rw [hfa] at ha; simp at ha
    | some b =>
      simp only [List.filterMap_cons, hfa, List.length_cons]
      exact congrArg Nat.succ (ih fun a ha => h a (List.mem_cons_of_mem _ ha))

/-- Collapsing the per-occurrence outcome list of a batch back to the
canonical result of FetchCitiesWeather. -/
theorem outcomes_filterMap_id (env : HttpEnv) (ws : WeatherService) (cities : List String) :
    (cities.map (cityFetchTask env ws)).filterMap id = (FetchCitiesWeather env ws cities).fst := by
  simp [FetchCitiesWeather, List.filterMap_map, Function.id_comp]

/-- C9: For every city name and API key, constructURL returns exactly the
base URL followed by a q parameter holding the raw city name and an appid
parameter holding the raw key, with the base URL fixed by NewWeatherService
and no URL escaping applied to either. -/
theorem constructURL_exact (city apiKey : String) :
    constructURL (NewWeatherService apiKey) city =
      "https://api.openweathermap.org/data/2.5/weather" ++ "?q=" ++ city ++ "&appid=" ++ apiKey :=
  rfl

/-- C2: For every list of city names and every combination of per-city
outcomes (the environment fixes each city's transport, status and decode
result), FetchCitiesWeather returns a nil error: the batch never fails as
a whole. -/
theorem fetchCitiesWeather_never_errs (env : HttpEnv) (ws : WeatherService)
    (cities : List String) : (FetchCitiesWeather env ws cities).snd = none :=
  rfl

/-- C7: Called with an empty city list, FetchCitiesWeather returns an empty
result and a nil error rather than rejecting the input. -/
theorem fetchCitiesWeather_empty (env : HttpEnv) (ws : WeatherService) :
    FetchCitiesWeather env ws [] = ([], none) :=
  rfl

/-- C5: The per-city task run inside FetchCitiesWeather computes, for every
city and environment, exactly the outcome of a direct FetchCityWeather call
(the same record on success, discard on the same failures), and the batch
result is exactly the per-city successes of the Single-City Fetcher, one
invocation per input occurrence. -/
theorem batch_refines_single_fetch (env : HttpEnv) (ws : WeatherService) :
    (∀ city : String, cityFetchTask env ws city = (FetchCityWeather env ws city).toOption) ∧
    (∀ cities : List String, (FetchCitiesWeather env ws cities).fst =
      cities.filterMap (fun city => (FetchCityWeather env ws city).toOption)) := by
  have h : ∀ city : String,
      cityFetchTask env ws city = (FetchCityWeather env ws city).toOption := by
    intro city
    cases hg : env.get (constructURL ws city) with
    | error e => simp [cityFetchTask, FetchCityWeather, hg, Except.toOption]
    | ok res =>
      cases hv : validateResponse res with
      | error e => simp [cityFetchTask, FetchCityWeather, hg, hv, Except.toOption]
      | ok u =>
        cases hd : env.decodeWeatherData res.body <;>
          simp [cityFetchTask, FetchCityWeather, parseWeatherData, hg, hv, hd, Except.toOption]
  refine ⟨h, fun cities => ?_⟩
  unfold FetchCitiesWeather
  exact List.filterMap_congr fun c _ => h c

/-- C1: For every city list, the batch result is at most as long as the
input, and its records, in order, are the successful outcomes of an
order-preserving selection of the per-occurrence fetches: every record
comes from exactly one occurrence of a requested city, none is duplicated
beyond input duplicates and none is synthesized. -/
theorem batch_result_within_input (env : HttpEnv) (ws : WeatherService)
    (cities : List String) :
    (FetchCitiesWeather env ws cities).fst.length ≤ cities.length ∧
    (((FetchCitiesWeather env ws cities).fst.map some).Sublist
      (cities.map (cityFetchTask env ws))) :=
  ⟨List.length_filterMap_le _ _, map_some_filterMap_sublist _ _⟩

/-- C4: When every per-city fetch succeeds, the batch result has exactly
the input's length, each occurrence of a duplicated name contributing its
own record. -/
theorem batch_result_full_on_success (env : HttpEnv) (ws : WeatherService)
    (cities : List String)
    (h : ∀ city ∈ cities, (cityFetchTask env ws city).isSome = true) :
    (FetchCitiesWeather env ws cities).fst.length = cities.length :=
  length_filterMap_of_isSome _ _ h

/-- C6: FetchCityWeather returns a record exactly when the GET succeeds at
the transport level with status 200 and a body that decodes as the
WeatherData shape (first conjunct, with error the complementary case of the
Except result), and the record returned is the decoded body itself (second
conjunct). -/
theorem fetchCityWeather_ok_iff (env : HttpEnv) (ws : WeatherService) (city : String) :
    ((∃ w, FetchCityWeather env ws city = Except.ok w) ↔
      (∃ res, env.get (constructURL ws city) = Except.ok res ∧ res.statusCode = 200 ∧
        (env.decodeWeatherData res.body).isSome = true)) ∧
    (∀ res w, env.get (constructURL ws city) = Except.ok res → res.statusCode = 200 →
      env.decodeWeatherData res.body = some w →
      FetchCityWeather env ws city = Except.ok w) := by
  constructor
  · constructor
    · rintro ⟨w, hw⟩
      cases hg : env.get (constructURL ws city) with
      | error e => simp [FetchCityWeather, hg] at hw
      | ok res =>
        refine ⟨res, rfl, ?_⟩
        by_cases hst : res.statusCode = 200
        · refine ⟨hst, ?_⟩
          cases hd : env.decodeWeatherData res.body with
          | none =>
            simp [FetchCityWeather, hg, validateResponse, hst, parseWeatherData, hd] at hw
          | some v => rfl
        · simp [FetchCityWeather, hg, validateResponse, hst] at hw
    · rintro ⟨res, hres, hst, hsome⟩
      cases hd : env.decodeWeatherData res.body with
      | none => rw [hd] at hsome; simp at hsome
      | some v =>
        exact ⟨v, by simp [FetchCityWeather, hres, validateResponse, hst, parseWeatherData, hd]⟩
  · intro res w hres hst hdec
    simp [FetchCityWeather, hres, validateResponse, hst, parseWeatherData, hdec]

/-- C8: With zero city query parameters, handleRoot replies 400 with the
fixed JSON error body, and its reply does not depend on the injected batch
fetcher at all (it is never invoked). -/
theorem handleRoot_no_city (f g : List String → List WeatherData × Option String)
    (query : List (String × String)) (h : queryValues query "city" = []) :
    handleRoot f query =
      { status := 400
        body := ResponseBody.errBody
          { error := "At least one city parameter is required" } } ∧
    handleRoot f query = handleRoot g query := by
  constructor <;> simp [handleRoot, h]

/-- C10: With a non-empty city list, handleRoot applied to the real batch
fetcher always writes the 200 success envelope carrying the batch result;
the 500 branch for a batch-fetch error is unreachable because
FetchCitiesWeather always returns a nil error. -/
theorem handleRoot_success_total (env : HttpEnv) (ws : WeatherService)
    (query : List (String × String)) (h : queryValues query "city" ≠ []) :
    handleRoot (FetchCitiesWeather env ws) query =
      { status := 200
        body := ResponseBody.okBody
          { message := "Weather fetched successfully"
            data := (FetchCitiesWeather env ws (queryValues query "city")).fst } } := by
  have hlen : (queryValues query "city").length ≠ 0 := by
    simpa [List.length_eq_zero] using h
  simp [handleRoot, hlen, FetchCitiesWeather]

/-- Execution invariant of the batch: the records already collected, the
records still buffered in the channel, and the successes of the goroutines
still to run are together a permutation of all per-occurrence successes;
and the channel is closed only once every goroutine has finished. -/
def BatchInv (outs : List (Option WeatherData)) (s : BatchState) : Prop :=
  ((s.collected ++ s.buf) ++ s.pending.filterMap id).Perm (outs.filterMap id) ∧
  (s.closed = true → s.pending = [])

/-- Every interleaving step preserves the batch invariant. -/
theorem batchInv_step {outs : List (Option WeatherData)} {s t : BatchState}
    (hinv : BatchInv outs s) (hst : BatchStep s t) : BatchInv outs t := by
  rcases hinv with ⟨hperm, hclosed⟩
  cases hst with
  | runTask l1 l2 o hp =>
    rw [hp] at hperm
    refine ⟨?_, ?_⟩
    · refine List.Perm.trans ?_ hperm
      cases o with
      | none => simp [List.filterMap_append]
      | some w =>
        simp only [List.filterMap_append, List.filterMap_cons, id_eq, Option.toList_some,
          List.append_assoc, List.singleton_append]
        exact ((List.perm_middle.symm).append_left _).append_left _
    · intro hc
      have := hclosed hc
      rw [hp] at this
      simp at this
  | closeChan hpend hcl =>
    exact ⟨hperm, fun _ => hpend⟩
  | recv w rest hb =>
    rw [hb] at hperm
    refine ⟨?_, hclosed⟩
    simpa [List.append_assoc] using hperm

/-- The batch invariant holds along every execution from any state that
satisfies it. -/
theorem batchInv_reach {outs : List (Option WeatherData)} {s t : BatchState}
    (h : Relation.ReflTransGen BatchStep s t) (hs : BatchInv outs s) : BatchInv outs t := by
  induction h with
  | refl => exact hs
  | tail hab hbc ih => exact batchInv_step ih hbc

/-- Running every remaining goroutine, in dispatch order, is one possible
execution fragment; it deposits every success in the channel. -/
theorem batch_run_all (outs : List (Option WeatherData)) (buf col : List WeatherData)
    (c : Bool) :
    Relation.ReflTransGen BatchStep ⟨outs, buf, c, col⟩
      ⟨[], buf ++ outs.filterMap id, c, col⟩ := by
  induction outs generalizing buf with
  | nil => simpa using Relation.ReflTransGen.refl
  | cons o rest ih =>
    refine Relation.ReflTransGen.head (BatchStep.runTask ⟨o :: rest, buf, c, col⟩ [] rest o rfl) ?_
    cases o with
    | none => simpa [List.filterMap_cons] using ih buf
    | some w => simpa [List.filterMap_cons, List.append_assoc] using ih (buf ++ [w])

/-- Draining the channel buffer, front to back, is one possible execution
fragment; it appends every buffered record to the result slice. -/
theorem batch_drain (p : List (Option WeatherData)) (buf col : List WeatherData) (c : Bool) :
    Relation.ReflTransGen BatchStep ⟨p, buf, c, col⟩ ⟨p, [], c, col ++ buf⟩ := by
  induction buf generalizing col with
  | nil => simpa using Relation.ReflTransGen.refl
  | cons w rest ih =>
    refine Relation.ReflTransGen.head (BatchStep.recv ⟨p, w :: rest, c, col⟩ w rest rfl) ?_
    simpa using ih (col ++ [w])

/-- C3: Under every interleaving of the per-city goroutines, the closer and
the receiving main loop, when FetchCitiesWeather's collection loop finishes
(channel closed and drained) every dispatched task has reached a terminal
state (none pending, so none leaked) and the collected records are exactly
a permutation of all per-occurrence successes (no record lost); and at
least one interleaving does finish that way. -/
theorem fetchCitiesWeather_waits_for_all (env : HttpEnv) (ws : WeatherService)
    (cities : List String) :
    (∀ s : BatchState,
      Relation.ReflTransGen BatchStep (initBatch env ws cities) s → BatchDone s →
      s.pending = [] ∧ s.collected.Perm (FetchCitiesWeather env ws cities).fst) ∧
    (∃ s : BatchState,
      Relation.ReflTransGen BatchStep (initBatch env ws cities) s ∧ BatchDone s ∧
      s.pending = [] ∧ s.collected.Perm (FetchCitiesWeather env ws cities).fst) := by
  constructor
  · intro s hreach hdone
    have hinit : BatchInv (cities.map (cityFetchTask env ws)) (initBatch env ws cities) := by
      constructor
      · simp [initBatch]
      · intro hc
        simp [initBatch] at hc
    have hinv := batchInv_reach hreach hinit
    rcases hinv with ⟨hperm, hclosed⟩
    have hpend : s.pending = [] := hclosed hdone.1
    refine ⟨hpend, ?_⟩
    rw [hpend, hdone.2] at hperm
    simpa [outcomes_filterMap_id env ws cities] using hperm
  · refine ⟨⟨[], [], true, (cities.map (cityFetchTask env ws)).filterMap id⟩, ?_, ⟨rfl, rfl⟩,
      rfl, ?_⟩
    · have h1 := batch_run_all (cities.map (cityFetchTask env ws)) [] [] false
      have h2 : BatchStep
          ⟨[], (cities.map (cityFetchTask env ws)).filterMap id, false, []⟩
          ⟨[], (cities.map (cityFetchTask env ws)).filterMap id, true, []⟩ :=
        BatchStep.closeChan _ rfl rfl
      have h3 := batch_drain ([] : List (Option WeatherData))
        ((cities.map (cityFetchTask env ws)).filterMap id) ([] : List WeatherData) true
      exact Relation.ReflTransGen.trans h1
        (Relation.ReflTransGen.trans (Relation.ReflTransGen.head h2 Relation.ReflTransGen.refl) h3)
    · rw [outcomes_filterMap_id env ws cities]

/-- A sample decoded weather record for concrete instantiations. -/
def sampleWeather : WeatherData where
  coord := { lon := 74.35, lat := 31.55 }
  weather := [{ id := 800, main := "Clear", description := "clear sky", icon := "01d" }]
  base := "stations"
  main := { temp := 300.0, feelsLike := 301.0, tempMin := 299.0, tempMax := 302.0,
            pressure := 1012, humidity := 40, seaLevel := 0, grndLevel := 0 }
  visibility := 10000
  wind := { speed := 3.6, deg := 160, gust := 0.0 }
  rain := { oneH := 0.0 }
  clouds := { all := 0 }
  dt := 1700000000
  sys := { type := 1, id := 7576, country := "PK", sunrise := 1699900000, sunset := 1699940000 }
  timezone := 18000
  id := 1172451
  name := "Lahore"
  cod := 200

/-- An environment in which every GET fails at the transport level. -/
def envDown : HttpEnv where
  get := fun _ => Except.error "connection refused"
  decodeWeatherData := fun _ => none

/-- An environment in which every GET returns 200 with a body that decodes
to the sample record. -/
def envUp : HttpEnv where
  get := fun _ => Except.ok { statusCode := 200, body := "weather json" }
  decodeWeatherData := fun _ => some sampleWeather

/-- Witness for C4 at a duplicated two-city input in the all-success
environment. -/
theorem batch_result_full_on_success_witness :
    (FetchCitiesWeather envUp (NewWeatherService "key") ["lahore", "lahore"]).fst.length = 2 :=
  batch_result_full_on_success envUp (NewWeatherService "key") ["lahore", "lahore"]
    (fun _ _ => rfl)

/-- Witness for C6: in the all-success environment the fetch returns the
decoded record. -/
theorem fetchCityWeather_ok_iff_witness :
    FetchCityWeather envUp (NewWeatherService "key") "lahore" = Except.ok sampleWeather :=
  (fetchCityWeather_ok_iff envUp (NewWeatherService "key") "lahore").2
    { statusCode := 200, body := "weather json" } sampleWeather rfl rfl rfl

/-- Witness for C8 at a query with no city key. -/
theorem handleRoot_no_city_witness :
    handleRoot (FetchCitiesWeather envUp (NewWeatherService "key")) [("q", "lahore")] =
      { status := 400
        body := ResponseBody.errBody
          { error := "At least one city parameter is required" } } ∧
    handleRoot (FetchCitiesWeather envUp (NewWeatherService "key")) [("q", "lahore")] =
      handleRoot (FetchCitiesWeather envDown (NewWeatherService "key")) [("q", "lahore")] :=
  handleRoot_no_city (FetchCitiesWeather envUp (NewWeatherService "key"))
    (FetchCitiesWeather envDown (NewWeatherService "key")) [("q", "lahore")] rfl

/-- Witness for C10 at a one-city query in the all-failure environment:
still a 200 success envelope (with an empty data list). -/
theorem handleRoot_success_total_witness :
    handleRoot (FetchCitiesWeather envDown (NewWeatherService "key")) [("city", "lahore")] =
      { status := 200
        body := ResponseBody.okBody
          { message := "Weather fetched successfully"
            data := (FetchCitiesWeather envDown (NewWeatherService "key")
              (queryValues [("city", "lahore")] "city")).fst } } :=
  handleRoot_success_total envDown (NewWeatherService "key") [("city", "lahore")]
    (by decide)

/-- Witness for C3: a concrete finished execution over one city in the
all-failure environment has no pending task and collects the (empty)
canonical result. -/
theorem fetchCitiesWeather_waits_for_all_witness :
    (⟨[], [], true, []⟩ : BatchState).pending = [] ∧
    (⟨[], [], true, []⟩ : BatchState).collected.Perm
      (FetchCitiesWeather envDown (NewWeatherService "key") ["lahore"]).fst :=
  (fetchCitiesWeather_waits_for_all envDown (NewWeatherService "key") ["lahore"]).1
    ⟨[], [], true, []⟩
    (Relation.ReflTransGen.head
      (BatchStep.runTask (initBatch envDown (NewWeatherService "key") ["lahore"]) [] [] none rfl)
      (Relation.ReflTransGen.head
        (BatchStep.closeChan ⟨[], [], false, []⟩ rfl rfl)
        Relation.ReflTransGen.refl))
    ⟨rfl, rfl⟩
